import Mathlib

/-!
Shallow embedding of `src/fmt.rs` from the `env_logger` repository.

The module formats log records into a shared byte buffer with optional
terminal styling.  The Rust code shares one `termcolor::Buffer` between a
`Formatter` and every `Style` minted from it through `Rc<RefCell<_>>`; we
model that sharing with an explicit store mapping buffer identifiers to
buffer states.  The external `termcolor` buffer is modelled as a byte list
together with a terminal-color state; its fallible `set_color`/`reset`
calls are modelled with an explicit environment stating which of the two
calls succeeds.  The external `chrono` formatting-item interpreter is
modelled for UTC date-times, which is the only way the source uses it
(`Timestamp` wraps a `DateTime<Utc>`).
-/

namespace EnvLogger

/-- Model of `termcolor::Color` (the closed enumeration of named colors
used by the source; the exact constructor set is irrelevant to the claims). -/
inductive Color where
  | Black
  | Blue
  | Green
  | Red
  | Cyan
  | Magenta
  | Yellow
  | White
deriving DecidableEq, Repr

/-- Model of `termcolor::ColorSpec`: foreground, background and bold flag. -/
structure ColorSpec where
  fg : Option Color
  bg : Option Color
  bold : Bool
deriving DecidableEq, Repr

/-- `ColorSpec::new()`: everything unset. -/
def ColorSpec.new : ColorSpec :=
  { fg := none, bg := none, bold := false }

/-- The terminal-color state carried by the buffer: either reset to the
default, or set to some spec (the state the last `set_color` installed). -/
inductive ColorState where
  | reset
  | set (spec : ColorSpec)
deriving DecidableEq, Repr

/-- Model of `termcolor::Buffer`: the accumulated bytes plus the
terminal-color state implied by the escape sequences written so far. -/
structure Buffer where
  bytes : List Nat
  color : ColorState
deriving DecidableEq, Repr

/-- Appending bytes to the buffer (`io::Write::write` on a memory buffer,
which always succeeds and consumes the whole input). -/
def Buffer.writeBytes (b : Buffer) (data : List Nat) : Buffer :=
  { b with bytes := b.bytes ++ data }

/-- `termcolor::Buffer::clear`: empties the accumulated data. -/
def Buffer.clear (b : Buffer) : Buffer :=
  { b with bytes := [] }

/-- Environment stating which of the two fallible terminal-color calls
succeed during one render (in the real program these are I/O results
surfaced by `termcolor`). -/
structure IOEnv where
  setColorOk : Bool
  resetOk : Bool
deriving DecidableEq, Repr

/-- `termcolor::WriteColor::set_color` on the buffer: installs the spec as
the active color state, or fails; a failure leaves the model state
untouched. -/
def Buffer.set_color (env : IOEnv) (spec : ColorSpec) (b : Buffer) : Except Unit Buffer :=
  if env.setColorOk then Except.ok { b with color := ColorState.set spec } else Except.error ()

/-- `termcolor::WriteColor::reset` on the buffer: returns the color state
to the default, or fails; a failure leaves the model state untouched. -/
def Buffer.reset (env : IOEnv) (b : Buffer) : Except Unit Buffer :=
  if env.resetOk then Except.ok { b with color := ColorState.reset } else Except.error ()

/-- `fmt::Result`: `Ok(())` or `Err(fmt::Error)`, with `fmt::Error` a unit
value carrying no information. -/
abbrev FmtResult := Except Unit Unit

/-- Rust `Result::and`: keep the first error, otherwise take the second
result. -/
def resultAnd (x y : FmtResult) : FmtResult :=
  match x with
  | Except.error e => Except.error e
  | Except.ok _ => y

/-- `WriteStyle`: whether or not to print styles to the target. -/
inductive WriteStyle where
  | Auto
  | Always
  | Never
deriving DecidableEq, Repr

/-- `impl Default for WriteStyle`: `Auto`. -/
def WriteStyle.default : WriteStyle :=
  WriteStyle.Auto

/-- `Target`: log target, `stdout` or `stderr`. -/
inductive Target where
  | Stdout
  | Stderr
deriving DecidableEq, Repr

/-- `impl Default for Target`: `Stderr`. -/
def Target.default : Target :=
  Target.Stderr

/-- `fn parse_write_style(spec: &str) -> WriteStyle`: match on the exact
strings `auto`, `always`, `never`, with everything else falling through to
`Default::default()`. -/
def parse_write_style (spec : String) : WriteStyle :=
  if spec = "auto" then WriteStyle.Auto
  else if spec = "always" then WriteStyle.Always
  else if spec = "never" then WriteStyle.Never
  else WriteStyle.default

/-- The writer `Builder`: target and style policy, configurable before
building. -/
structure Builder where
  target : Target
  write_style : WriteStyle
deriving DecidableEq, Repr

/-- `Builder::new()`: initialize the writer builder with defaults. -/
def Builder.new : Builder :=
  { target := Target.default, write_style := WriteStyle.default }

/-- `Builder::write_style`: set the style policy. -/
def Builder.write_style_set (b : Builder) (ws : WriteStyle) : Builder :=
  { b with write_style := ws }

/-- `Builder::parse`: parse a style-choice string into the policy. -/
def Builder.parse (b : Builder) (spec : String) : Builder :=
  Builder.write_style_set b (parse_write_style spec)

/-- `Builder::target`: set the target to write to. -/
def Builder.target_set (b : Builder) (t : Target) : Builder :=
  { b with target := t }

/-- The heap of shared buffers: `Rc<RefCell<Buffer>>` identity is modelled
by a `Nat` identifier into this store. -/
def Store := Nat → Buffer

/-- Mutating the one buffer an `Rc` handle points at. -/
def updateStore (σ : Store) (i : Nat) (b : Buffer) : Store :=
  fun j => if j = i then b else σ j

/-- `Formatter`: shares one buffer (by identifier) and records the resolved
style policy. -/
structure Formatter where
  buf : Nat
  write_style : WriteStyle

/-- `Style`: a shared handle to the same buffer plus its own `ColorSpec`. -/
structure Style where
  buf : Nat
  spec : ColorSpec
deriving DecidableEq, Repr

/-- `Formatter::style()`: mints a `Style` whose `buf` is a clone of the
formatter's `Rc` (the same buffer identity) and whose spec is fresh. -/
def Formatter.style (fm : Formatter) : Style :=
  { buf := fm.buf, spec := ColorSpec.new }

/-- `#[derive(Clone)] for Style`: clones the `Rc` (same buffer identity)
and copies the spec. -/
def Style.clone (s : Style) : Style :=
  { buf := s.buf, spec := s.spec }

/-- `Style::set_color`. -/
def Style.set_color (s : Style) (c : Color) : Style :=
  { s with spec := { s.spec with fg := some c } }

/-- `Style::set_bold`. -/
def Style.set_bold (s : Style) (yes : Bool) : Style :=
  { s with spec := { s.spec with bold := yes } }

/-- `Style::set_bg`. -/
def Style.set_bg (s : Style) (c : Color) : Style :=
  { s with spec := { s.spec with bg := some c } }

/-- `StyledValue`: pairs a style with an arbitrary value. -/
structure StyledValue (T : Type) where
  style : Style
  value : T

/-- `Style::value`. -/
def Style.value {T : Type} (s : Style) (v : T) : StyledValue T :=
  { style := s, value := v }

/-- `impl Write for Formatter`: `write` delegates to the shared buffer and
returns the number of bytes consumed. -/
def Formatter.write (fm : Formatter) (data : List Nat) (σ : Store) : Store × Nat :=
  (updateStore σ fm.buf (Buffer.writeBytes (σ fm.buf) data), data.length)

/-- `Formatter::clear`: truncates the shared buffer. -/
def Formatter.clear (fm : Formatter) (σ : Store) : Store :=
  updateStore σ fm.buf (Buffer.clear (σ fm.buf))

/-- `StyledValue::write_fmt`, transcribed from the source:

* `set_color` on the shared buffer with the owning style's spec, with `?`
  returning `fmt::Error` at once on failure;
* then the inner write `f` (which renders the value into the same shared
  buffer);
* then, unconditionally, `reset` on the shared buffer;
* overall result `write.and(reset)`. -/
def StyledValue.write_fmt {T : Type} (env : IOEnv) (sv : StyledValue T)
    (f : Buffer → Buffer × FmtResult) (σ : Store) : Store × FmtResult :=
  match Buffer.set_color env sv.style.spec (σ sv.style.buf) with
  | Except.error _ => (σ, Except.error ())
  | Except.ok b1 =>
      let wr := f b1
      match Buffer.reset env wr.1 with
      | Except.ok b3 => (updateStore σ sv.style.buf b3, resultAnd wr.2 (Except.ok ()))
      | Except.error _ => (updateStore σ sv.style.buf wr.1, resultAnd wr.2 (Except.error ()))

/-- The nine textual-conversion protocols the `impl_styled_value_fmt!`
macro instantiates for `StyledValue`. -/
inductive FmtKind where
  | debug
  | display
  | pointer
  | octal
  | binary
  | upperHex
  | lowerHex
  | upperExp
  | lowerExp
deriving DecidableEq, Repr

/-- The trait dictionaries for the inner value type `T`: for each protocol,
how `T::fmt` renders the value into the shared buffer. -/
structure FmtImpls (T : Type) where
  debugFmt : T → Buffer → Buffer × FmtResult
  displayFmt : T → Buffer → Buffer × FmtResult
  pointerFmt : T → Buffer → Buffer × FmtResult
  octalFmt : T → Buffer → Buffer × FmtResult
  binaryFmt : T → Buffer → Buffer × FmtResult
  upperHexFmt : T → Buffer → Buffer × FmtResult
  lowerHexFmt : T → Buffer → Buffer × FmtResult
  upperExpFmt : T → Buffer → Buffer × FmtResult
  lowerExpFmt : T → Buffer → Buffer × FmtResult

/-- The conversion the given protocol uses for the inner value. -/
def kindConv {T : Type} (k : FmtKind) (impls : FmtImpls T) : T → Buffer → Buffer × FmtResult :=
  match k with
  | FmtKind.debug => impls.debugFmt
  | FmtKind.display => impls.displayFmt
  | FmtKind.pointer => impls.pointerFmt
  | FmtKind.octal => impls.octalFmt
  | FmtKind.binary => impls.binaryFmt
  | FmtKind.upperHex => impls.upperHexFmt
  | FmtKind.lowerHex => impls.lowerHexFmt
  | FmtKind.upperExp => impls.upperExpFmt
  | FmtKind.lowerExp => impls.lowerExpFmt

/-- Expansion of `impl_styled_value_fmt!` for `fmt::Debug`:
`self.write_fmt(|| T::fmt(&self.value, f))`. -/
def StyledValue.fmtDebug {T : Type} (impls : FmtImpls T) (env : IOEnv)
    (sv : StyledValue T) (σ : Store) : Store × FmtResult :=
  StyledValue.write_fmt env sv (fun b => impls.debugFmt sv.value b) σ

/-- Expansion of `impl_styled_value_fmt!` for `fmt::Display`. -/
def StyledValue.fmtDisplay {T : Type} (impls : FmtImpls T) (env : IOEnv)
    (sv : StyledValue T) (σ : Store) : Store × FmtResult :=
  StyledValue.write_fmt env sv (fun b => impls.displayFmt sv.value b) σ

/-- Expansion of `impl_styled_value_fmt!` for `fmt::Pointer`. -/
def StyledValue.fmtPointer {T : Type} (impls : FmtImpls T) (env : IOEnv)
    (sv : StyledValue T) (σ : Store) : Store × FmtResult :=
  StyledValue.write_fmt env sv (fun b => impls.pointerFmt sv.value b) σ

/-- Expansion of `impl_styled_value_fmt!` for `fmt::Octal`. -/
def StyledValue.fmtOctal {T : Type} (impls : FmtImpls T) (env : IOEnv)
    (sv : StyledValue T) (σ : Store) : Store × FmtResult :=
  StyledValue.write_fmt env sv (fun b => impls.octalFmt sv.value b) σ

/-- Expansion of `impl_styled_value_fmt!` for `fmt::Binary`. -/
def StyledValue.fmtBinary {T : Type} (impls : FmtImpls T) (env : IOEnv)
    (sv : StyledValue T) (σ : Store) : Store × FmtResult :=
  StyledValue.write_fmt env sv (fun b => impls.binaryFmt sv.value b) σ

/-- Expansion of `impl_styled_value_fmt!` for `fmt::UpperHex`. -/
def StyledValue.fmtUpperHex {T : Type} (impls : FmtImpls T) (env : IOEnv)
    (sv : StyledValue T) (σ : Store) : Store × FmtResult :=
  StyledValue.write_fmt env sv (fun b => impls.upperHexFmt sv.value b) σ

/-- Expansion of `impl_styled_value_fmt!` for `fmt::LowerHex`. -/
def StyledValue.fmtLowerHex {T : Type} (impls : FmtImpls T) (env : IOEnv)
    (sv : StyledValue T) (σ : Store) : Store × FmtResult :=
  StyledValue.write_fmt env sv (fun b => impls.lowerHexFmt sv.value b) σ

/-- Expansion of `impl_styled_value_fmt!` for `fmt::UpperExp`. -/
def StyledValue.fmtUpperExp {T : Type} (impls : FmtImpls T) (env : IOEnv)
    (sv : StyledValue T) (σ : Store) : Store × FmtResult :=
  StyledValue.write_fmt env sv (fun b => impls.upperExpFmt sv.value b) σ

/-- Expansion of `impl_styled_value_fmt!` for `fmt::LowerExp`. -/
def StyledValue.fmtLowerExp {T : Type} (impls : FmtImpls T) (env : IOEnv)
    (sv : StyledValue T) (σ : Store) : Store × FmtResult :=
  StyledValue.write_fmt env sv (fun b => impls.lowerExpFmt sv.value b) σ

/-- Dispatch table over the nine generated impls. -/
def styledFmt {T : Type} (k : FmtKind) (impls : FmtImpls T) (env : IOEnv)
    (sv : StyledValue T) (σ : Store) : Store × FmtResult :=
  match k with
  | FmtKind.debug => StyledValue.fmtDebug impls env sv σ
  | FmtKind.display => StyledValue.fmtDisplay impls env sv σ
  | FmtKind.pointer => StyledValue.fmtPointer impls env sv σ
  | FmtKind.octal => StyledValue.fmtOctal impls env sv σ
  | FmtKind.binary => StyledValue.fmtBinary impls env sv σ
  | FmtKind.upperHex => StyledValue.fmtUpperHex impls env sv σ
  | FmtKind.lowerHex => StyledValue.fmtLowerHex impls env sv σ
  | FmtKind.upperExp => StyledValue.fmtUpperExp impls env sv σ
  | FmtKind.lowerExp => StyledValue.fmtLowerExp impls env sv σ

/-- `Timestamp(DateTime<Utc>)`: the captured UTC instant, modelled by its
civil fields (the only data the fixed rendering reads). -/
structure Timestamp where
  year : Nat
  month : Nat
  day : Nat
  hour : Nat
  minute : Nat
  second : Nat
deriving DecidableEq, Repr

/-- `chrono::format::Numeric`, restricted to the variants the source names. -/
inductive NumericItem where
  | Year
  | Month
  | Day
  | Hour
  | Minute
  | Second
deriving DecidableEq, Repr

/-- `chrono::format::Pad`, restricted to the variant the source names. -/
inductive PadItem where
  | Zero
deriving DecidableEq, Repr

/-- `chrono::format::Fixed`, restricted to the variant the source names. -/
inductive FixedItem where
  | TimezoneOffsetZ
deriving DecidableEq, Repr

/-- `chrono::format::Item`, restricted to the shapes the source uses. -/
inductive Item where
  | Numeric (n : NumericItem) (p : PadItem)
  | Literal (s : String)
  | Fixed (f : FixedItem)
deriving DecidableEq, Repr

/-- The decimal digit string of a natural number, most significant digit
first, modelling how `chrono` prints an unsigned numeric field. -/
def decRepr (n : Nat) : List Char :=
  if n = 0 then ['0'] else (Nat.digits 10 n).reverse.map Nat.digitChar

/-- Zero padding to a fixed width, modelling `Pad::Zero`: left-pad with
`0` up to the field width, never truncating. -/
def zeroPad (w : Nat) (s : List Char) : List Char :=
  List.replicate (w - s.length) '0' ++ s

/-- The field width `chrono` assigns each numeric item: four digits for the
year, two for everything else the source uses. -/
def numericWidth (n : NumericItem) : Nat :=
  match n with
  | NumericItem.Year => 4
  | NumericItem.Month => 2
  | NumericItem.Day => 2
  | NumericItem.Hour => 2
  | NumericItem.Minute => 2
  | NumericItem.Second => 2

/-- Which civil field a numeric item reads. -/
def numericValue (ts : Timestamp) (n : NumericItem) : Nat :=
  match n with
  | NumericItem.Year => ts.year
  | NumericItem.Month => ts.month
  | NumericItem.Day => ts.day
  | NumericItem.Hour => ts.hour
  | NumericItem.Minute => ts.minute
  | NumericItem.Second => ts.second

/-- Rendering one `chrono` item for a UTC instant: zero-padded numerics,
literals verbatim, and `TimezoneOffsetZ` printing the literal `Z` because a
`DateTime<Utc>` always carries the zero offset. -/
def formatItem (ts : Timestamp) (it : Item) : List Char :=
  match it with
  | Item.Numeric n _ => zeroPad (numericWidth n) (decRepr (numericValue ts n))
  | Item.Literal s => s.data
  | Item.Fixed FixedItem.TimezoneOffsetZ => ['Z']

/-- The `ITEMS` constant of `impl fmt::Display for Timestamp`, transcribed
from the source. -/
def ITEMS : List Item :=
  [Item.Numeric NumericItem.Year PadItem.Zero,
   Item.Literal "-",
   Item.Numeric NumericItem.Month PadItem.Zero,
   Item.Literal "-",
   Item.Numeric NumericItem.Day PadItem.Zero,
   Item.Literal "T",
   Item.Numeric NumericItem.Hour PadItem.Zero,
   Item.Literal ":",
   Item.Numeric NumericItem.Minute PadItem.Zero,
   Item.Literal ":",
   Item.Numeric NumericItem.Second PadItem.Zero,
   Item.Fixed FixedItem.TimezoneOffsetZ]

/-- `chrono`'s `format_with_items`: concatenate the rendering of each item. -/
def format_with_items (ts : Timestamp) (items : List Item) : List Char :=
  (items.map (formatItem ts)).flatten

/-- `impl fmt::Display for Timestamp`: format with the fixed `ITEMS` list. -/
def Timestamp.display (ts : Timestamp) : List Char :=
  format_with_items ts ITEMS

/-- A `Display::fmt` call appends the rendered text to the formatter's
accumulated output, leaving what was already there in place. -/
def Timestamp.fmtInto (ts : Timestamp) (out : List Char) : List Char :=
  out ++ Timestamp.display ts

/-- One write operation issued against a record's shared buffer: either a
plain `write!` through the `Formatter`, or a styled render through a
`Style` (with succeeding terminal-color calls, the value's bytes being
`data`). -/
inductive RecordOp where
  | plain (data : List Nat)
  | styled (st : Style) (data : List Nat)
deriving DecidableEq

/-- Whether an operation targets the buffer with identifier `i` (a plain
write goes through the formatter itself). -/
def opOnBuf (i : Nat) (op : RecordOp) : Bool :=
  match op with
  | RecordOp.plain _ => true
  | RecordOp.styled st _ => st.buf == i

/-- The payload bytes an operation contributes. -/
def opBytes (op : RecordOp) : List Nat :=
  match op with
  | RecordOp.plain d => d
  | RecordOp.styled _ d => d

/-- The environment in which both terminal-color calls succeed (the normal
case of writing into a memory buffer). -/
def okEnv : IOEnv :=
  { setColorOk := true, resetOk := true }

/-- Executing one operation against the store. -/
def execOp (fm : Formatter) (σ : Store) (op : RecordOp) : Store :=
  match op with
  | RecordOp.plain d => (Formatter.write fm d σ).1
  | RecordOp.styled st d =>
      (StyledValue.write_fmt okEnv (Style.value st ())
        (fun b => (Buffer.writeBytes b d, Except.ok ())) σ).1

/-- Executing a sequence of operations in issue order. -/
def execOps (fm : Formatter) (ops : List RecordOp) (σ : Store) : Store :=
  ops.foldl (execOp fm) σ

/-- A store of empty buffers with the terminal-color state at its default. -/
def σ0 : Store :=
  fun _ => { bytes := [], color := ColorState.reset }

/-- A concrete styled unit value over buffer 0 with a fresh spec. -/
def sv0 : StyledValue Unit :=
  { style := { buf := 0, spec := ColorSpec.new }, value := () }

/-- A concrete inner write that appends one byte and succeeds. -/
def fOk : Buffer → Buffer × FmtResult :=
  fun b => (Buffer.writeBytes b [65], Except.ok ())

/-- A concrete inner write that appends one byte and fails. -/
def fErr : Buffer → Buffer × FmtResult :=
  fun b => (Buffer.writeBytes b [66], Except.error ())

/-- A concrete formatter over buffer 0. -/
def fm0 : Formatter :=
  { buf := 0, write_style := WriteStyle.Auto }

/-- A concrete interleaving of a plain write and a styled write. -/
def ops0 : List RecordOp :=
  [RecordOp.plain [72], RecordOp.styled { buf := 0, spec := ColorSpec.new } [69]]

/-- A concrete trait dictionary whose nine conversions coincide. -/
def impls0 : FmtImpls Unit :=
  { debugFmt := fun _ => fOk, displayFmt := fun _ => fOk, pointerFmt := fun _ => fOk,
    octalFmt := fun _ => fOk, binaryFmt := fun _ => fOk, upperHexFmt := fun _ => fOk,
    lowerHexFmt := fun _ => fOk, upperExpFmt := fun _ => fOk, lowerExpFmt := fun _ => fOk }

/-! Helper lemmas. -/

theorem digitChar_isDigit : ∀ d : Nat, d < 10 → (Nat.digitChar d).isDigit = true := by
  decide

theorem decRepr_length_le (w n : Nat) (hw : 0 < w) (h : n < 10 ^ w) :
    (decRepr n).length ≤ w := by
  unfold decRepr
  by_cases h0 : n = 0
  · simp [h0]
    omega
  · simp [h0]
    have hlen : (Nat.digits 10 n).length = Nat.log 10 n + 1 :=
      Nat.digits_len 10 n (by norm_num) h0
    have hlog : Nat.log 10 n < w := (Nat.lt_pow_iff_log_lt (by norm_num) h0).mp h
    omega

theorem decRepr_all_digits (n : Nat) : (decRepr n).all Char.isDigit = true := by
  unfold decRepr
  by_cases h0 : n = 0
  · simp [h0]
  · simp only [h0, if_false, List.all_eq_true]
    intro c hc
    simp only [List.mem_map, List.mem_reverse] at hc
    obtain ⟨d, hd, rfl⟩ := hc
    exact digitChar_isDigit d (Nat.digits_lt_base (by norm_num) hd)

theorem zeroPad_length (w : Nat) (s : List Char) (h : s.length ≤ w) :
    (zeroPad w s).length = w := by
  simp [zeroPad]
  omega

theorem zeroPad_all_digits (w : Nat) (s : List Char) (h : s.all Char.isDigit = true) :
    (zeroPad w s).all Char.isDigit = true := by
  simp only [zeroPad, List.all_append, Bool.and_eq_true]
  refine ⟨?_, h⟩
  simp only [List.all_eq_true]
  intro c hc
  rw [List.eq_of_mem_replicate hc]
  decide

theorem numField_length (w n : Nat) (hw : 0 < w) (h : n < 10 ^ w) :
    (zeroPad w (decRepr n)).length = w :=
  zeroPad_length w (decRepr n) (decRepr_length_le w n hw h)

theorem numField_all_digits (w n : Nat) :
    (zeroPad w (decRepr n)).all Char.isDigit = true :=
  zeroPad_all_digits w (decRepr n) (decRepr_all_digits n)

theorem execOp_on_target (fm : Formatter) (σ : Store) (op : RecordOp)
    (h : opOnBuf fm.buf op = true) :
    ((execOp fm σ op) fm.buf).bytes = (σ fm.buf).bytes ++ opBytes op ∧
    ∀ j, j ≠ fm.buf → execOp fm σ op j = σ j := by
  cases op with
  | plain d =>
      constructor
      · simp [execOp, Formatter.write, updateStore, Buffer.writeBytes, opBytes]
      · intro j hj
        simp [execOp, Formatter.write, updateStore, hj]
  | styled st d =>
      have hb : st.buf = fm.buf := by
        simpa [opOnBuf] using h
      constructor
      · simp [execOp, StyledValue.write_fmt, Buffer.set_color, Buffer.reset, okEnv,
          Style.value, Buffer.writeBytes, resultAnd, updateStore, hb, opBytes]
      · intro j hj
        simp [execOp, StyledValue.write_fmt, Buffer.set_color, Buffer.reset, okEnv,
          Style.value, Buffer.writeBytes, resultAnd, updateStore, hb, hj]

theorem execOps_on_target (fm : Formatter) (ops : List RecordOp) (σ : Store)
    (h : ∀ op ∈ ops, opOnBuf fm.buf op = true) :
    ((execOps fm ops σ) fm.buf).bytes = (σ fm.buf).bytes ++ (ops.map opBytes).flatten ∧
    ∀ j, j ≠ fm.buf → (execOps fm ops σ) j = σ j := by
  induction ops generalizing σ with
  | nil => simp [execOps]
  | cons op rest ih =>
      have hop : opOnBuf fm.buf op = true := h op (List.mem_cons_self op rest)
      have hrest : ∀ o ∈ rest, opOnBuf fm.buf o = true :=
        fun o ho => h o (List.mem_cons_of_mem op ho)
      obtain ⟨hb, hoth⟩ := execOp_on_target fm σ op hop
      obtain ⟨ihb, ihoth⟩ := ih (execOp fm σ op) hrest
      have hstep : execOps fm (op :: rest) σ = execOps fm rest (execOp fm σ op) := rfl
      constructor
      · rw [hstep, ihb, hb]
        simp [List.append_assoc]
      · intro j hj
        rw [hstep, ihoth j hj, hoth j hj]

/-- The result of `write_fmt` once the style-apply step succeeded: the
inner write's result combined with the reset's result by `Result::and`. -/
theorem write_fmt_result {T : Type} (env : IOEnv) (sv : StyledValue T)
    (f : Buffer → Buffer × FmtResult) (σ : Store) (h1 : env.setColorOk = true) :
    (StyledValue.write_fmt env sv f σ).2 =
      resultAnd (f { σ sv.style.buf with color := ColorState.set sv.style.spec }).2
        (if env.resetOk then Except.ok () else Except.error ()) := by
  cases hr : env.resetOk <;>
    simp [StyledValue.write_fmt, Buffer.set_color, Buffer.reset, h1, hr]

/-! Claim theorems. -/

/-- C1: when applying the owning Style's spec to the shared buffer's
terminal-color state fails, the render returns a formatting error at once,
the buffer is untouched, and the inner value's rendering is never
attempted (the result does not depend on the inner write at all). -/
theorem styled_apply_fail_aborts {T : Type} (env : IOEnv) (sv : StyledValue T)
    (f g : Buffer → Buffer × FmtResult) (σ : Store)
    (h : env.setColorOk = false) :
    (StyledValue.write_fmt env sv f σ).2 = Except.error () ∧
    (StyledValue.write_fmt env sv f σ).1 = σ ∧
    StyledValue.write_fmt env sv f σ = StyledValue.write_fmt env sv g σ := by
  simp [StyledValue.write_fmt, Buffer.set_color, h]

/-- Witness for C1 at a concrete failing environment, with two different
inner writes. -/
theorem styled_apply_fail_aborts_witness :
    (StyledValue.write_fmt { setColorOk := false, resetOk := true } sv0 fOk σ0).2 =
      Except.error () ∧
    (StyledValue.write_fmt { setColorOk := false, resetOk := true } sv0 fOk σ0).1 = σ0 ∧
    StyledValue.write_fmt { setColorOk := false, resetOk := true } sv0 fOk σ0 =
      StyledValue.write_fmt { setColorOk := false, resetOk := true } sv0 fErr σ0 :=
  styled_apply_fail_aborts { setColorOk := false, resetOk := true } sv0 fOk fErr σ0 rfl

/-- C2: once the style-apply step succeeded, the reset is attempted no
matter how the inner write fared, so whenever the reset call itself
succeeds the shared buffer's terminal-color state is left at reset. -/
theorem styled_render_always_resets {T : Type} (env : IOEnv) (sv : StyledValue T)
    (f : Buffer → Buffer × FmtResult) (σ : Store)
    (h1 : env.setColorOk = true) (h2 : env.resetOk = true) :
    (((StyledValue.write_fmt env sv f σ).1) sv.style.buf).color = ColorState.reset := by
  simp [StyledValue.write_fmt, Buffer.set_color, Buffer.reset, h1, h2, updateStore]

/-- Witness for C2 at a concrete environment, with an inner write that
fails: the color state still ends at reset. -/
theorem styled_render_always_resets_witness :
    (((StyledValue.write_fmt okEnv sv0 fErr σ0).1) sv0.style.buf).color = ColorState.reset :=
  styled_render_always_resets okEnv sv0 fErr σ0 rfl rfl

/-- C3: once the style-apply step succeeded, the render's overall result is
an error exactly when the inner write failed or the reset failed, and in
the double-failure case the two unit-valued `fmt::Error`s are combined by
`Result::and` into an overall error, never a silent success. -/
theorem styled_render_error_iff {T : Type} (env : IOEnv) (sv : StyledValue T)
    (f : Buffer → Buffer × FmtResult) (σ : Store) (h1 : env.setColorOk = true) :
    ((StyledValue.write_fmt env sv f σ).2 = Except.error () ↔
      ((f { σ sv.style.buf with color := ColorState.set sv.style.spec }).2 = Except.error () ∨
        env.resetOk = false)) ∧
    (((f { σ sv.style.buf with color := ColorState.set sv.style.spec }).2 = Except.error () ∧
        env.resetOk = false) →
      (StyledValue.write_fmt env sv f σ).2 = Except.error ()) := by
  rw [write_fmt_result env sv f σ h1]
  cases hr : env.resetOk <;>
    cases hw : (f { σ sv.style.buf with color := ColorState.set sv.style.spec }).2 <;>
      simp [resultAnd]

/-- Witness for C3 at a concrete environment in which the inner write and
the reset both fail: the overall result is still an error. -/
theorem styled_render_error_iff_witness :
    ((StyledValue.write_fmt { setColorOk := true, resetOk := false } sv0 fErr σ0).2 =
        Except.error () ↔
      ((fErr { σ0 sv0.style.buf with color := ColorState.set sv0.style.spec }).2 =
          Except.error () ∨
        IOEnv.resetOk { setColorOk := true, resetOk := false } = false)) ∧
    (((fErr { σ0 sv0.style.buf with color := ColorState.set sv0.style.spec }).2 =
          Except.error () ∧
        IOEnv.resetOk { setColorOk := true, resetOk := false } = false) →
      (StyledValue.write_fmt { setColorOk := true, resetOk := false } sv0 fErr σ0).2 =
        Except.error ()) :=
  styled_render_error_iff { setColorOk := true, resetOk := false } sv0 fErr σ0 rfl

/-- C4: the style-policy parser maps exactly `always` to `Always`, `never`
to `Never`, `auto` to `Auto`, and every other string (case-sensitively,
the empty string included) to `Auto`; it is a total function. -/
theorem parse_write_style_spec :
    parse_write_style "always" = WriteStyle.Always ∧
    parse_write_style "never" = WriteStyle.Never ∧
    parse_write_style "auto" = WriteStyle.Auto ∧
    ∀ s : String, s ≠ "auto" → s ≠ "always" → s ≠ "never" →
      parse_write_style s = WriteStyle.Auto := by
  refine ⟨by decide, by decide, by decide, ?_⟩
  intro s h1 h2 h3
  simp [parse_write_style, h1, h2, h3, WriteStyle.default]

/-- Witness for C4 on a string that matches no policy, a case-variant
included in the source's own test data. -/
theorem parse_write_style_spec_witness :
    parse_write_style "NEVER!!" = WriteStyle.Auto :=
  parse_write_style_spec.2.2.2 "NEVER!!" (by decide) (by decide) (by decide)

/-- C7: a Style minted by `Formatter::style` and any clone of a Style keep
the very buffer identity of their origin, and any interleaving of plain
formatter writes and styled renders over that buffer appends exactly the
issued bytes in issue order to the one shared buffer, touching no other. -/
theorem style_shares_formatter_buffer (fm : Formatter) (st : Style)
    (ops : List RecordOp) (σ : Store)
    (h : ∀ op ∈ ops, opOnBuf fm.buf op = true) :
    (Formatter.style fm).buf = fm.buf ∧
    (Style.clone st).buf = st.buf ∧
    ((execOps fm ops σ) fm.buf).bytes = (σ fm.buf).bytes ++ (ops.map opBytes).flatten ∧
    ∀ j, j ≠ fm.buf → (execOps fm ops σ) j = σ j := by
  obtain ⟨hb, hoth⟩ := execOps_on_target fm ops σ h
  exact ⟨rfl, rfl, hb, hoth⟩

/-- Witness for C7 on a concrete plain-then-styled interleaving. -/
theorem style_shares_formatter_buffer_witness :
    (Formatter.style fm0).buf = fm0.buf ∧
    (Style.clone sv0.style).buf = sv0.style.buf ∧
    ((execOps fm0 ops0 σ0) fm0.buf).bytes = (σ0 fm0.buf).bytes ++ (ops0.map opBytes).flatten ∧
    ∀ j, j ≠ fm0.buf → (execOps fm0 ops0 σ0) j = σ0 j :=
  style_shares_formatter_buffer fm0 sv0.style ops0 σ0 (by decide)

/-- C8: `Formatter::clear` truncates the shared buffer to empty, leaving
every other buffer alone, in every state. -/
theorem formatter_clear_empties (fm : Formatter) (σ : Store) :
    ((Formatter.clear fm σ) fm.buf).bytes = [] ∧
    ∀ j, j ≠ fm.buf → Formatter.clear fm σ j = σ j := by
  constructor
  · simp [Formatter.clear, updateStore, Buffer.clear]
  · intro j hj
    simp [Formatter.clear, updateStore, hj]

/-- C9: a writer Builder constructed with no explicit configuration has
style policy `Auto` and target `Stderr`, and those are exactly the two
enumerations' default values. -/
theorem builder_new_defaults :
    Builder.new.target = Target.Stderr ∧ Builder.new.write_style = WriteStyle.Auto ∧
    Target.default = Target.Stderr ∧ WriteStyle.default = WriteStyle.Auto :=
  ⟨rfl, rfl, rfl, rfl⟩

/-- C10: each of the nine generated textual-conversion impls equals the one
shared `write_fmt` routine applied to that protocol's conversion of the
inner value, so two protocols whose conversions agree render identically. -/
theorem styled_fmt_delegates {T : Type} (k : FmtKind) (impls : FmtImpls T)
    (env : IOEnv) (sv : StyledValue T) (σ : Store) :
    styledFmt k impls env sv σ =
      StyledValue.write_fmt env sv (fun b => kindConv k impls sv.value b) σ ∧
    ∀ k2 : FmtKind, kindConv k impls sv.value = kindConv k2 impls sv.value →
      styledFmt k impls env sv σ = styledFmt k2 impls env sv σ := by
  have hall : ∀ k1 : FmtKind, styledFmt k1 impls env sv σ =
      StyledValue.write_fmt env sv (fun b => kindConv k1 impls sv.value b) σ := by
    intro k1
    cases k1 <;> rfl
  refine ⟨hall k, ?_⟩
  intro k2 hk
  rw [hall k, hall k2, hk]

/-- Witness for C10: with a dictionary whose conversions coincide, the
debug and display protocols render identically. -/
theorem styled_fmt_delegates_witness :
    styledFmt FmtKind.debug impls0 okEnv sv0 σ0 =
      styledFmt FmtKind.display impls0 okEnv sv0 σ0 :=
  (styled_fmt_delegates FmtKind.debug impls0 okEnv sv0 σ0).2 FmtKind.display rfl

/-- C5: for in-range captured instants the rendered timestamp is a 4-digit
zero-padded year, then `-`, 2-digit month, `-`, 2-digit day, `T`, 2-digit
hour, `:`, 2-digit minute, `:`, 2-digit second, then the literal `Z` of
the zero UTC offset; every field consists of digits only. -/
theorem timestamp_display_fixed_layout (ts : Timestamp)
    (hy : ts.year < 10000) (hmo : ts.month < 100) (hd : ts.day < 100)
    (hh : ts.hour < 100) (hmi : ts.minute < 100) (hs : ts.second < 100) :
    ∃ ys ms ds hrs mis ss : List Char,
      Timestamp.display ts =
        ys ++ ['-'] ++ ms ++ ['-'] ++ ds ++ ['T'] ++ hrs ++ [':'] ++ mis ++ [':'] ++
          ss ++ ['Z'] ∧
      ys.length = 4 ∧ ms.length = 2 ∧ ds.length = 2 ∧ hrs.length = 2 ∧
      mis.length = 2 ∧ ss.length = 2 ∧
      (ys ++ ms ++ ds ++ hrs ++ mis ++ ss).all Char.isDigit = true := by
  have h4 : (10 : Nat) ^ 4 = 10000 := by norm_num
  have h2 : (10 : Nat) ^ 2 = 100 := by norm_num
  refine ⟨zeroPad 4 (decRepr ts.year), zeroPad 2 (decRepr ts.month),
    zeroPad 2 (decRepr ts.day), zeroPad 2 (decRepr ts.hour),
    zeroPad 2 (decRepr ts.minute), zeroPad 2 (decRepr ts.second),
    ?_, ?_, ?_, ?_, ?_, ?_, ?_, ?_⟩
  · simp [Timestamp.display, format_with_items, ITEMS, formatItem, numericWidth,
      numericValue]
  · exact numField_length 4 ts.year (by norm_num) (h4 ▸ hy)
  · exact numField_length 2 ts.month (by norm_num) (h2 ▸ hmo)
  · exact numField_length 2 ts.day (by norm_num) (h2 ▸ hd)
  · exact numField_length 2 ts.hour (by norm_num) (h2 ▸ hh)
  · exact numField_length 2 ts.minute (by norm_num) (h2 ▸ hmi)
  · exact numField_length 2 ts.second (by norm_num) (h2 ▸ hs)
  · simp [List.all_append, numField_all_digits]

/-- Witness for C5 at a concrete captured instant. -/
theorem timestamp_display_fixed_layout_witness :
    ∃ ys ms ds hrs mis ss : List Char,
      Timestamp.display
          { year := 2006, month := 1, day := 2, hour := 15, minute := 4, second := 5 } =
        ys ++ ['-'] ++ ms ++ ['-'] ++ ds ++ ['T'] ++ hrs ++ [':'] ++ mis ++ [':'] ++
          ss ++ ['Z'] ∧
      ys.length = 4 ∧ ms.length = 2 ∧ ds.length = 2 ∧ hrs.length = 2 ∧
      mis.length = 2 ∧ ss.length = 2 ∧
      (ys ++ ms ++ ds ++ hrs ++ mis ++ ss).all Char.isDigit = true :=
  timestamp_display_fixed_layout
    { year := 2006, month := 1, day := 2, hour := 15, minute := 4, second := 5 }
    (by decide) (by decide) (by decide) (by decide) (by decide) (by decide)

/-- C6: rendering a Timestamp is a pure function of its captured instant:
the appended text is buffer-independent, rendering twice appends the same
text twice, and the bytes already in the output are preserved. -/
theorem timestamp_render_pure (ts : Timestamp) :
    ∃ out : List Char,
      (∀ buf : List Char, Timestamp.fmtInto ts buf = buf ++ out) ∧
      (∀ buf : List Char,
        Timestamp.fmtInto ts (Timestamp.fmtInto ts buf) = buf ++ (out ++ out)) ∧
      (∀ buf : List Char, (Timestamp.fmtInto ts buf).take buf.length = buf) := by
  refine ⟨Timestamp.display ts, fun buf => rfl, fun buf => ?_, fun buf => ?_⟩
  · simp [Timestamp.fmtInto]
  · simp [Timestamp.fmtInto]

end EnvLogger
